import Mathlib

/-!
Shallow embedding of `src/athena_query_lambda.py`: the Athena query
execution coordinator (`execute_athena_query`), the parameter binder
(Python `str.format` over the templates of `PREDEFINED_QUERIES`), and the
tool dispatcher (`lambda_handler`).

The external Athena service is modelled as an oracle (`AthenaService`)
supplying the submission outcome, the status reported on each poll, and
the execution's result set.  Python dicts are modelled as association
lists with Python's insert-or-update semantics; the JSON-shaped response
dictionaries of the handler are modelled by the `JVal` type.
-/

namespace AthenaLambda

/-- One entry of a result row's `Data` array: Athena may omit the
`VarCharValue` key of a cell, which the source reads with
`row['Data'][i].get('VarCharValue', '')`. -/
structure Datum where
  varCharValue : Option String
deriving DecidableEq, Repr

/-- The fetched result set: the column `Label`s of
`ResultSet.ResultSetMetadata.ColumnInfo` and the `Rows` (the first row is
the header echo). -/
structure ResultSet where
  columnLabels : List String
  rows : List (List Datum)
deriving DecidableEq, Repr

/-- One `get_query_execution` response: `Status.State` and the optional
`Status.StateChangeReason`. -/
structure StatusReport where
  state : String
  stateChangeReason : Option String
deriving DecidableEq, Repr

/-- Oracle for the external Athena service as seen by one invocation:
the outcome of `start_query_execution` (`.error` models a raised
exception, `.ok` the returned `QueryExecutionId`), the status report the
service returns on the n-th status poll (0-indexed), and the complete
result set of the execution. -/
structure AthenaService where
  startQueryExecution : String → Except String String
  statusAt : Nat → StatusReport
  resultSet : ResultSet

/-- Modelled from the spec: the outbound result fetch is an "opaque call
taking the handle identifier, returning column labels and up to 100 data
rows (first row reserved as header echo)" — `get_query_results` with
`MaxResults` returns at most that many rows of the execution's result
set.  The call itself is external to the repository; only the
`MaxResults=100` argument is the source's. -/
def AthenaService.getQueryResults (svc : AthenaService) (maxResults : Nat) : ResultSet :=
  { columnLabels := svc.resultSet.columnLabels, rows := svc.resultSet.rows.take maxResults }

/-- Python dict assignment `d[k] = v`: update the value in place when the
key is present (keeping its original position), else append. -/
def dictInsert (d : List (String × String)) (k v : String) : List (String × String) :=
  match d with
  | [] => [(k, v)]
  | (k0, v0) :: rest => if k0 = k then (k0, v) :: rest else (k0, v0) :: dictInsert rest k v

/-- The loop `for i, col in enumerate(columns): row_data[col] =
row['Data'][i].get('VarCharValue', '')` of the source (lines 147-150).
An out-of-range index models Python's `IndexError` (message
`list index out of range`), which escapes to the coordinator's
`except` clause. -/
def parseRowAux (data : List Datum) : List String → Nat → List (String × String) →
    Except String (List (String × String))
  | [], _, acc => .ok acc
  | col :: cols, i, acc =>
      match data[i]? with
      | none => .error "list index out of range"
      | some d => parseRowAux data cols (i + 1) (dictInsert acc col (d.varCharValue.getD ""))

/-- Build one materialized row (`row_data`) from a data row. -/
def parseRow (columns : List String) (data : List Datum) : Except String (List (String × String)) :=
  parseRowAux data columns 0 []

/-- `for row in result['ResultSet']['Rows'][1:]: ... rows.append(row_data)`:
materialize every data row in order; the first raised error aborts the
whole loop (the exception escapes to the coordinator's `except`). -/
def parseRows (columns : List String) : List (List Datum) →
    Except String (List (List (String × String)))
  | [] => .ok []
  | r :: rs =>
      match parseRow columns r with
      | .error e => .error e
      | .ok row =>
          match parseRows columns rs with
          | .error e => .error e
          | .ok rows => .ok (row :: rows)

/-- The value `execute_athena_query` returns: `{'success': True,
'columns': ..., 'rows': ..., 'row_count': ...}` or
`{'success': False, 'error': ...}`. -/
inductive QueryOutcome where
  | ok (columns : List String) (rows : List (List (String × String))) (rowCount : Nat)
  | err (error : String)
deriving DecidableEq, Repr

/-- Lines 142-158 of the source: parse the fetched result set and shape
the success dictionary (`row_count` is `len(rows)`); a raised parse error
becomes the `except` clause's `{'success': False, 'error': str(e)}`. -/
def materializeResult (rs : ResultSet) : QueryOutcome :=
  match parseRows rs.columnLabels (rs.rows.drop 1) with
  | .ok rows => .ok rs.columnLabels rows rows.length
  | .error e => .err e

/-- One coordinator run, instrumented with the number of status polls
(`get_query_execution` calls), result fetches (`get_query_results`
calls), and `time.sleep(1)` calls it performed. -/
structure ExecTrace where
  outcome : QueryOutcome
  polls : Nat
  fetches : Nat
  sleeps : Nat
deriving DecidableEq, Repr

/-- The polling loop `while attempt < max_attempts` of
`execute_athena_query` (lines 127-170).  The Python loop variable
`attempt` counts up from 0 and `remaining = max_attempts - attempt`
counts down, so the guard `attempt < max_attempts` is `remaining > 0`.
Each iteration polls once; a non-terminal status sleeps one time unit and
continues; `SUCCEEDED` fetches the result set (`MaxResults=100`) and
materializes it; `FAILED`/`CANCELLED` returns the reported
`StateChangeReason` defaulted to `Unknown error`; an exhausted budget
returns the timeout error. -/
def pollLoop (svc : AthenaService) : Nat → Nat → ExecTrace
  | _attempt, 0 =>
      { outcome := .err "Query timeout - exceeded maximum wait time",
        polls := 0, fetches := 0, sleeps := 0 }
  | attempt, remaining + 1 =>
      let report := svc.statusAt attempt
      if report.state = "SUCCEEDED" then
        { outcome := materializeResult (svc.getQueryResults 100),
          polls := 1, fetches := 1, sleeps := 0 }
      else if report.state = "FAILED" ∨ report.state = "CANCELLED" then
        { outcome := .err (report.stateChangeReason.getD "Unknown error"),
          polls := 1, fetches := 0, sleeps := 0 }
      else
        let r := pollLoop svc (attempt + 1) remaining
        { outcome := r.outcome, polls := r.polls + 1, fetches := r.fetches,
          sleeps := r.sleeps + 1 }

/-- `execute_athena_query` (lines 102-182): submit the query
(`start_query_execution` is called exactly once; a raised exception is
returned immediately as `{'success': False, 'error': str(e)}` with no
poll, fetch or sleep), then run the polling loop with
`max_attempts = 60` from `attempt = 0`. -/
def execute_athena_query (svc : AthenaService) (query : String) : ExecTrace :=
  match svc.startQueryExecution query with
  | .error e => { outcome := .err e, polls := 0, fetches := 0, sleeps := 0 }
  | .ok _queryExecutionId => pollLoop svc 0 60

/-- A Python exception relevant to `str.format`: `KeyError` (caught by
the handler's inner `except KeyError`) or `ValueError` (caught only by
the outer catch-all). -/
inductive PyExc where
  | keyError (name : String)
  | valueError (msg : String)
deriving DecidableEq, Repr

/-- Model of Python `str.format(**params)` restricted to the simple
`\x7bname\x7d` replacement fields used by `PREDEFINED_QUERIES` (no
conversion `!` or format-spec `:` suffixes occur in the templates).  The
scanner works left to right; the first argument is `none` in literal
text and `some acc` inside a replacement field with the reversed field
name read so far.  `\x7b\x7b`/`\x7d\x7d` escapes produce a literal
brace; a stray `\x7d`, an unterminated field or a `\x7b` inside a field
name raise `ValueError` with CPython's message; a field name absent from
the parameters raises `KeyError` naming it, at the point the scan
reaches it. -/
def pyFormatAux (params : List (String × String)) :
    Option (List Char) → List Char → Except PyExc (List Char)
  | none, [] => .ok []
  | none, '\x7b' :: '\x7b' :: rest => (pyFormatAux params none rest).map (fun s => '\x7b' :: s)
  | none, '\x7d' :: '\x7d' :: rest => (pyFormatAux params none rest).map (fun s => '\x7d' :: s)
  | none, '\x7b' :: rest => pyFormatAux params (some []) rest
  | none, '\x7d' :: _ => .error (.valueError "Single '\x7d' encountered in format string")
  | none, c :: rest => (pyFormatAux params none rest).map (fun s => c :: s)
  | some _, [] => .error (.valueError "Single '\x7b' encountered in format string")
  | some acc, '\x7d' :: rest =>
      match List.lookup acc.reverse.asString params with
      | none => .error (.keyError acc.reverse.asString)
      | some v => (pyFormatAux params none rest).map (fun s => v.data ++ s)
  | some _, '\x7b' :: _ => .error (.valueError "unexpected '\x7b' in field name")
  | some acc, c :: rest => pyFormatAux params (some (c :: acc)) rest

/-- `template.format(**params)` on a template string. -/
def pyFormat (params : List (String × String)) (template : String) : Except PyExc String :=
  (pyFormatAux params none template.data).map List.asString

/-- The replacement-field names of a template, in template order, when
the template is simple: well-paired braces, no doubled-brace escapes and
no brace inside a field name.  Mirrors the scan of `pyFormatAux`;
`none` marks a template outside that fragment.  All templates of
`PREDEFINED_QUERIES` are simple. -/
def simpleFieldsAux : Option (List Char) → List Char → Option (List String)
  | none, [] => some []
  | none, '\x7b' :: '\x7b' :: _ => none
  | none, '\x7d' :: '\x7d' :: _ => none
  | none, '\x7b' :: rest => simpleFieldsAux (some []) rest
  | none, '\x7d' :: _ => none
  | none, _ :: rest => simpleFieldsAux none rest
  | some _, [] => none
  | some acc, '\x7d' :: rest => (simpleFieldsAux none rest).map (fun fs => acc.reverse.asString :: fs)
  | some _, '\x7b' :: _ => none
  | some acc, c :: rest => simpleFieldsAux (some (c :: acc)) rest

/-- The replacement-field names of a template, in template order. -/
def simpleFields (template : String) : Option (List String) :=
  simpleFieldsAux none template.data

/-- The field names of a template of the store (all store templates are
simple, so the default is never taken on them). -/
def templateFields (template : String) : List String :=
  (simpleFields template).getD []

/-- The first field of the template, in template order, that has no
entry in the parameters. -/
def firstMissing (params : List (String × String)) (template : String) : Option String :=
  (templateFields template).find? (fun n => (List.lookup n params).isNone)

/-- `PREDEFINED_QUERIES['get_sales_summary']` (source lines 19-28),
character for character. -/
def tmpl_get_sales_summary : String :=
  "\n        SELECT \n            DATE_TRUNC('month', order_date) as month,\n            SUM(total_amount) as total_sales,\n            COUNT(DISTINCT order_id) as order_count\n        FROM sales_table\n        WHERE order_date >= DATE_ADD('month', -6, CURRENT_DATE)\n        GROUP BY DATE_TRUNC('month', order_date)\n        ORDER BY month DESC\n    "

/-- `PREDEFINED_QUERIES['get_top_customers']` (source lines 30-41). -/
def tmpl_get_top_customers : String :=
  "\n        SELECT \n            customer_id,\n            customer_name,\n            SUM(total_amount) as lifetime_value,\n            COUNT(order_id) as order_count\n        FROM sales_table\n        WHERE order_date >= DATE_ADD('year', -1, CURRENT_DATE)\n        GROUP BY customer_id, customer_name\n        ORDER BY lifetime_value DESC\n        LIMIT \x7blimit\x7d\n    "

/-- `PREDEFINED_QUERIES['get_product_performance']` (source lines 43-55). -/
def tmpl_get_product_performance : String :=
  "\n        SELECT \n            product_id,\n            product_name,\n            SUM(quantity) as units_sold,\n            SUM(total_amount) as revenue,\n            AVG(unit_price) as avg_price\n        FROM sales_table\n        WHERE order_date >= DATE_ADD('month', -\x7bmonths\x7d, CURRENT_DATE)\n        GROUP BY product_id, product_name\n        ORDER BY revenue DESC\n        LIMIT \x7blimit\x7d\n    "

/-- `PREDEFINED_QUERIES['get_regional_breakdown']` (source lines 57-67). -/
def tmpl_get_regional_breakdown : String :=
  "\n        SELECT \n            region,\n            COUNT(DISTINCT customer_id) as unique_customers,\n            SUM(total_amount) as total_revenue,\n            AVG(total_amount) as avg_order_value\n        FROM sales_table\n        WHERE order_date >= DATE_ADD('month', -\x7bmonths\x7d, CURRENT_DATE)\n        GROUP BY region\n        ORDER BY total_revenue DESC\n    "

/-- `PREDEFINED_QUERIES['get_inventory_status']` (source lines 69-83). -/
def tmpl_get_inventory_status : String :=
  "\n        SELECT \n            product_id,\n            product_name,\n            current_stock,\n            reorder_level,\n            CASE \n                WHEN current_stock <= reorder_level THEN 'LOW'\n                WHEN current_stock <= reorder_level * 1.5 THEN 'MEDIUM'\n                ELSE 'GOOD'\n            END as stock_status\n        FROM inventory_table\n        WHERE warehouse_id = '\x7bwarehouse_id\x7d'\n        ORDER BY stock_status, current_stock ASC\n    "

/-- `PREDEFINED_QUERIES['get_order_details']` (source lines 85-98). -/
def tmpl_get_order_details : String :=
  "\n        SELECT \n            o.order_id,\n            o.order_date,\n            o.customer_name,\n            o.total_amount,\n            o.status,\n            oi.product_name,\n            oi.quantity,\n            oi.unit_price\n        FROM orders_table o\n        JOIN order_items_table oi ON o.order_id = oi.order_id\n        WHERE o.order_id = '\x7border_id\x7d'\n    "

/-- The template store `PREDEFINED_QUERIES` (source lines 18-99), a dict
with distinct keys modelled as an association list in source order. -/
def PREDEFINED_QUERIES : List (String × String) :=
  [("get_sales_summary", tmpl_get_sales_summary),
   ("get_top_customers", tmpl_get_top_customers),
   ("get_product_performance", tmpl_get_product_performance),
   ("get_regional_breakdown", tmpl_get_regional_breakdown),
   ("get_inventory_status", tmpl_get_inventory_status),
   ("get_order_details", tmpl_get_order_details)]

/-- A JSON-shaped Python value, modelling the dictionaries the handler
returns. -/
inductive JVal where
  | str (s : String)
  | nat (n : Nat)
  | bool (b : Bool)
  | arr (xs : List JVal)
  | obj (fields : List (String × JVal))

/-- Field access on an object value. -/
def JVal.lookupField : JVal → String → Option JVal
  | .obj fields, k => List.lookup k fields
  | _, _ => none

/-- Whether an object value carries a given key. -/
def JVal.hasKey : JVal → String → Bool
  | .obj fields, k => fields.any (fun p => p.1 == k)
  | _, _ => false

/-- A materialized row as the handler serializes it: a dict of string
values. -/
def rowToJ (r : List (String × String)) : JVal :=
  .obj (r.map (fun p => (p.1, .str p.2)))

/-- `delimiter = "___"` (source line 199). -/
def delim : String := "___"

/-- Python `haystack.index(pattern)`: the lowest index at which `pattern`
occurs, or `none` for the raised `ValueError` (message
`substring not found`). -/
def strFindIndex (pat : List Char) : List Char → Option Nat
  | [] => if pat.isEmpty then some 0 else none
  | c :: rest =>
      if pat.isPrefixOf (c :: rest) then some 0
      else (strFindIndex pat rest).map (fun n => n + 1)

/-- Lines 199-201 of the source: `tool_name =
original_tool_name[original_tool_name.index(delimiter) +
len(delimiter):]`.  A missing delimiter is the raised `ValueError`. -/
def extractToolName (original : String) : Except String String :=
  match strFindIndex delim.data original.data with
  | none => .error "substring not found"
  | some idx => .ok ((original.data.drop (idx + delim.length)).asString)

/-- What one `lambda_handler` invocation did: the returned dictionary and
the coordinator trace when `execute_athena_query` was invoked (`none`
means no query was ever submitted to the service). -/
structure HandlerResult where
  response : JVal
  trace : Option ExecTrace

/-- `lambda_handler` (source lines 185-250).  `event` is the parameter
dict, `originalToolName` the context's `bedrockAgentCoreToolName`.  The
outer `except` turns a raised `ValueError` (from `index` or from a
malformed template) into `{'status': 'error', 'error': str(e)}`; an
unknown tool returns `{'success': False, 'error': 'Unknown tool: ...'}`;
a `KeyError` from `format` returns `{'success': False, 'error':
"Missing required parameter: '<name>'"}` (Python's `str` of a `KeyError`
wraps the key in quotes); otherwise the formatted query is executed and
the coordinator outcome shaped into the status envelope. -/
def lambda_handler (svc : AthenaService) (event : List (String × String))
    (originalToolName : String) : HandlerResult :=
  match extractToolName originalToolName with
  | .error e => { response := .obj [("status", .str "error"), ("error", .str e)], trace := none }
  | .ok tool_name =>
    match List.lookup tool_name PREDEFINED_QUERIES with
    | none =>
        { response := .obj [("success", .bool false),
                            ("error", .str ("Unknown tool: " ++ tool_name))],
          trace := none }
    | some query_template =>
      match pyFormat event query_template with
      | .error (.keyError name) =>
          { response := .obj [("success", .bool false),
                              ("error", .str ("Missing required parameter: \x27" ++ name ++ "\x27"))],
            trace := none }
      | .error (.valueError msg) =>
          { response := .obj [("status", .str "error"), ("error", .str msg)], trace := none }
      | .ok query =>
        let result := execute_athena_query svc query
        match result.outcome with
        | .ok columns rows row_count =>
            { response := .obj [("status", .str "success"),
                                ("data", .arr (rows.map rowToJ)),
                                ("metadata", .obj [("columns", .arr (columns.map JVal.str)),
                                                   ("row_count", .nat row_count)])],
              trace := some result }
        | .err e =>
            { response := .obj [("status", .str "error"), ("error", .str e)],
              trace := some result }

/-- A status string on which the loop keeps polling: neither the
`SUCCEEDED` branch nor the `FAILED`/`CANCELLED` branch is taken. -/
def nonTerminalState (s : String) : Prop :=
  s ≠ "SUCCEEDED" ∧ s ≠ "FAILED" ∧ s ≠ "CANCELLED"

instance (s : String) : Decidable (nonTerminalState s) := by
  unfold nonTerminalState; infer_instance

/-- Chars free of both brace characters. -/
def bracesFree (l : List Char) : Bool :=
  l.all (fun c => !(c == '\x7b') && !(c == '\x7d'))

/-- No brace character occurs in the string (no `\x7b...\x7d` marker can
be formed without one). -/
def noBraces (s : String) : Bool :=
  bracesFree s.data

/-- The value is a JSON string. -/
def isStr : JVal → Bool
  | .str _ => true
  | _ => false

/-- The value is an object all of whose field values are strings (the
shape of one serialized result row). -/
def isStrObj : JVal → Bool
  | .obj fs => fs.all (fun p => isStr p.2)
  | _ => false

/-- The exact success envelope shape of source lines 231-238:
`status='success'`, a `data` list of string-valued row objects, and a
`metadata` object with the column list and the row count. -/
def isSuccessShape : JVal → Bool
  | .obj [("status", .str "success"), ("data", .arr rows),
          ("metadata", .obj [("columns", .arr cols), ("row_count", .nat _)])] =>
      rows.all isStrObj && cols.all isStr
  | _ => false

/-- The `{'status': 'error', 'error': ...}` envelope of source lines
240-243 and 247-250. -/
def isStatusErrorShape : JVal → Bool
  | .obj [("status", .str "error"), ("error", .str _)] => true
  | _ => false

/-- The `{'success': False, 'error': ...}` dictionary of source lines
208-211 and 219-222 (it has no `status` key). -/
def isLegacyErrorShape : JVal → Bool
  | .obj [("success", .bool false), ("error", .str _)] => true
  | _ => false

/-- A service that accepts the submission and reports `RUNNING` on every
poll: the coordinator must exhaust its attempt budget. -/
def runningService : AthenaService :=
  { startQueryExecution := fun _ => .ok "qid-0",
    statusAt := fun _ => { state := "RUNNING", stateChangeReason := none },
    resultSet := { columnLabels := [], rows := [] } }

/-- A service that accepts the submission and immediately reports
`SUCCEEDED`, with a header row and one data row (the inventory scenario
of spec section 8). -/
def inventoryService : AthenaService :=
  { startQueryExecution := fun _ => .ok "qid-1",
    statusAt := fun _ => { state := "SUCCEEDED", stateChangeReason := none },
    resultSet :=
      { columnLabels := ["product_id", "product_name", "current_stock",
                         "reorder_level", "stock_status"],
        rows := [[⟨some "product_id"⟩, ⟨some "product_name"⟩, ⟨some "current_stock"⟩,
                  ⟨some "reorder_level"⟩, ⟨some "stock_status"⟩],
                 [⟨some "P100"⟩, ⟨some "Widget"⟩, ⟨some "4"⟩, ⟨some "10"⟩, ⟨some "LOW"⟩]] } }

/-- A service whose query fails on the first poll with a reported
reason. -/
def failingService : AthenaService :=
  { startQueryExecution := fun _ => .ok "qid-2",
    statusAt := fun _ => { state := "FAILED", stateChangeReason := some "SYNTAX_ERROR line 1" },
    resultSet := { columnLabels := [], rows := [] } }

/-- A service that runs once and is then cancelled with no reported
reason. -/
def cancelledService : AthenaService :=
  { startQueryExecution := fun _ => .ok "qid-3",
    statusAt := fun n =>
      if n = 0 then { state := "RUNNING", stateChangeReason := none }
      else { state := "CANCELLED", stateChangeReason := none },
    resultSet := { columnLabels := [], rows := [] } }

/-- A service whose submission call raises (e.g. an auth failure). -/
def downService : AthenaService :=
  { startQueryExecution := fun _ => .error "AccessDeniedException",
    statusAt := fun _ => { state := "RUNNING", stateChangeReason := none },
    resultSet := { columnLabels := [], rows := [] } }

/-! ### Poll-loop lemmas -/

theorem pollLoop_success (svc : AthenaService) :
    ∀ (b rem attempt : Nat), b < rem →
      (svc.statusAt (attempt + b)).state = "SUCCEEDED" →
      (∀ j, j < b → nonTerminalState (svc.statusAt (attempt + j)).state) →
      pollLoop svc attempt rem =
        { outcome := materializeResult (svc.getQueryResults 100),
          polls := b + 1, fetches := 1, sleeps := b } := by
  intro b
  induction b with
  | zero =>
      intro rem attempt hlt hsucc _
      match rem, hlt with
      | rem + 1, _ =>
        rw [Nat.add_zero] at hsucc
        simp [pollLoop, hsucc]
  | succ b ih =>
      intro rem attempt hlt hsucc hnon
      match rem, hlt with
      | rem + 1, hlt =>
        have h0 : nonTerminalState (svc.statusAt (attempt + 0)).state :=
          hnon 0 (Nat.succ_pos b)
        rw [Nat.add_zero] at h0
        obtain ⟨h1, h2, h3⟩ := h0
        have hrec := ih rem (attempt + 1) (by omega)
          (by rw [show attempt + 1 + b = attempt + (b + 1) by omega]; exact hsucc)
          (by intro j hj
              rw [show attempt + 1 + j = attempt + (j + 1) by omega]
              exact hnon (j + 1) (by omega))
        simp only [pollLoop]
        rw [if_neg h1, if_neg (by simp [h2, h3]), hrec]

theorem pollLoop_terminal (svc : AthenaService) :
    ∀ (b rem attempt : Nat), b < rem →
      ((svc.statusAt (attempt + b)).state = "FAILED" ∨
       (svc.statusAt (attempt + b)).state = "CANCELLED") →
      (∀ j, j < b → nonTerminalState (svc.statusAt (attempt + j)).state) →
      pollLoop svc attempt rem =
        { outcome := .err ((svc.statusAt (attempt + b)).stateChangeReason.getD "Unknown error"),
          polls := b + 1, fetches := 0, sleeps := b } := by
  intro b
  induction b with
  | zero =>
      intro rem attempt hlt hterm _
      match rem, hlt with
      | rem + 1, _ =>
        rw [Nat.add_zero] at hterm ⊢
        have hne : ¬ (svc.statusAt attempt).state = "SUCCEEDED" := by
          rcases hterm with h | h <;> simp [h]
        simp only [pollLoop]
        rw [if_neg hne, if_pos hterm]
        simp
  | succ b ih =>
      intro rem attempt hlt hterm hnon
      match rem, hlt with
      | rem + 1, hlt =>
        have h0 : nonTerminalState (svc.statusAt (attempt + 0)).state :=
          hnon 0 (Nat.succ_pos b)
        rw [Nat.add_zero] at h0
        obtain ⟨h1, h2, h3⟩ := h0
        have hrec := ih rem (attempt + 1) (by omega)
          (by rw [show attempt + 1 + b = attempt + (b + 1) by omega]; exact hterm)
          (by intro j hj
              rw [show attempt + 1 + j = attempt + (j + 1) by omega]
              exact hnon (j + 1) (by omega))
        simp only [pollLoop]
        rw [if_neg h1, if_neg (by simp [h2, h3]), hrec]
        rw [show attempt + 1 + b = attempt + (b + 1) by omega]

theorem pollLoop_timeout (svc : AthenaService) :
    ∀ (rem attempt : Nat),
      (∀ j, j < rem → nonTerminalState (svc.statusAt (attempt + j)).state) →
      pollLoop svc attempt rem =
        { outcome := .err "Query timeout - exceeded maximum wait time",
          polls := rem, fetches := 0, sleeps := rem } := by
  intro rem
  induction rem with
  | zero => intro attempt _; simp [pollLoop]
  | succ rem ih =>
      intro attempt hnon
      have h0 : nonTerminalState (svc.statusAt (attempt + 0)).state :=
        hnon 0 (Nat.succ_pos rem)
      rw [Nat.add_zero] at h0
      obtain ⟨h1, h2, h3⟩ := h0
      have hrec := ih (attempt + 1)
        (by intro j hj
            rw [show attempt + 1 + j = attempt + (j + 1) by omega]
            exact hnon (j + 1) (by omega))
      simp only [pollLoop]
      rw [if_neg h1, if_neg (by simp [h2, h3]), hrec]

/-! ### Row materialization lemmas -/

theorem dictInsert_not_mem (k v : String) :
    ∀ d : List (String × String), k ∉ d.map Prod.fst → dictInsert d k v = d ++ [(k, v)] := by
  intro d
  induction d with
  | nil => intro _; rfl
  | cons p rest ih =>
      intro h
      obtain ⟨k0, v0⟩ := p
      simp only [List.map_cons, List.mem_cons] at h
      push_neg at h
      simp only [dictInsert]
      rw [if_neg (fun hk => h.1 hk.symm), ih h.2]
      rfl

theorem parseRowAux_spec (data : List Datum) :
    ∀ (cols : List String) (i : Nat) (acc : List (String × String)),
      i + cols.length ≤ data.length →
      cols.Nodup →
      (∀ c ∈ cols, c ∉ acc.map Prod.fst) →
      parseRowAux data cols i acc =
        .ok (acc ++ cols.zip (((data.drop i).take cols.length).map
              (fun d => d.varCharValue.getD ""))) := by
  intro cols
  induction cols with
  | nil => intro i acc _ _ _; simp [parseRowAux]
  | cons c cs ih =>
      intro i acc hlen hnd hdisj
      have hi : i < data.length := by simp only [List.length_cons] at hlen; omega
      have hget : data[i]? = some data[i] := List.getElem?_eq_getElem hi
      have hdrop : data.drop i = data[i] :: data.drop (i + 1) :=
        List.drop_eq_getElem_cons hi
      obtain ⟨hcn, hnd'⟩ := List.nodup_cons.mp hnd
      simp only [parseRowAux, hget]
      rw [dictInsert_not_mem _ _ _ (hdisj c (List.mem_cons_self c cs))]
      rw [ih (i + 1) (acc ++ [(c, (data[i]).varCharValue.getD "")])
            (by simp only [List.length_cons] at hlen; omega) hnd'
            (by intro c' hc'
                have h1 : c' ∉ List.map Prod.fst acc := hdisj c' (List.mem_cons_of_mem c hc')
                have h2 : c' ≠ c := fun heq => hcn (heq ▸ hc')
                simp [h1, h2])]
      rw [hdrop]
      simp only [List.length_cons, List.take_succ_cons, List.map_cons, List.zip_cons_cons,
        List.append_assoc, List.singleton_append]

theorem parseRow_spec (columns : List String) (data : List Datum)
    (hlen : columns.length ≤ data.length) (hnd : columns.Nodup) :
    parseRow columns data =
      .ok (columns.zip ((data.take columns.length).map (fun d => d.varCharValue.getD ""))) := by
  have := parseRowAux_spec data columns 0 [] (by omega) hnd (by simp)
  simpa [parseRow] using this

theorem parseRows_spec (columns : List String) (hnd : columns.Nodup) :
    ∀ rws : List (List Datum),
      (∀ r ∈ rws, columns.length ≤ r.length) →
      parseRows columns rws =
        .ok (rws.map (fun r =>
          columns.zip ((r.take columns.length).map (fun d => d.varCharValue.getD "")))) := by
  intro rws
  induction rws with
  | nil => intro _; rfl
  | cons r rs ih =>
      intro hlen
      simp only [parseRows]
      rw [parseRow_spec columns r (hlen r (List.mem_cons_self r rs)) hnd]
      rw [ih (fun r' hr' => hlen r' (List.mem_cons_of_mem r hr'))]
      simp

theorem parseRows_length (columns : List String) :
    ∀ (rws : List (List Datum)) (out : List (List (String × String))),
      parseRows columns rws = .ok out → out.length = rws.length := by
  intro rws
  induction rws with
  | nil =>
      intro out h
      simp only [parseRows] at h
      cases h
      rfl
  | cons r rs ih =>
      intro out h
      simp only [parseRows] at h
      rcases hr : parseRow columns r with e | row <;> rw [hr] at h
      · cases h
      · rcases hrs : parseRows columns rs with e | rows' <;> rw [hrs] at h
        · cases h
        · cases h
          simp [ih rows' hrs]

/-! ### Fetch invariant and claim C9 -/

theorem pollLoop_ok_inv (svc : AthenaService) :
    ∀ (rem attempt : Nat) (cols : List String) (rows : List (List (String × String))) (n : Nat),
      (pollLoop svc attempt rem).outcome = .ok cols rows n →
      (pollLoop svc attempt rem).fetches = 1 ∧ cols = svc.resultSet.columnLabels ∧
        n = rows.length ∧ rows.length ≤ 99 := by
  intro rem
  induction rem with
  | zero => intro attempt cols rows n h; simp [pollLoop] at h
  | succ rem ih =>
      intro attempt cols rows n h
      by_cases hs : (svc.statusAt attempt).state = "SUCCEEDED"
      · simp only [pollLoop, if_pos hs] at h ⊢
        refine ⟨by trivial, ?_⟩
        unfold materializeResult at h
        rcases hp : parseRows (svc.getQueryResults 100).columnLabels
            ((svc.getQueryResults 100).rows.drop 1) with e | out <;> rw [hp] at h
        · cases h
        · have hlen := parseRows_length _ _ _ hp
          cases h
          refine ⟨rfl, rfl, ?_⟩
          rw [hlen]
          simp only [AthenaService.getQueryResults, List.length_drop, List.length_take]
          omega
      · by_cases ht : (svc.statusAt attempt).state = "FAILED" ∨
            (svc.statusAt attempt).state = "CANCELLED"
        · simp only [pollLoop, if_neg hs, if_pos ht] at h
          cases h
        · simp only [pollLoop, if_neg hs, if_neg ht] at h ⊢
          exact ih (attempt + 1) cols rows n h

theorem execute_ok_inv (svc : AthenaService) (query : String) (cols : List String)
    (rows : List (List (String × String))) (n : Nat)
    (h : (execute_athena_query svc query).outcome = .ok cols rows n) :
    (execute_athena_query svc query).fetches = 1 ∧ cols = svc.resultSet.columnLabels ∧
      n = rows.length ∧ rows.length ≤ 99 := by
  have hu : ∀ svc2 q2, execute_athena_query svc2 q2 =
      match svc2.startQueryExecution q2 with
      | .error e => { outcome := .err e, polls := 0, fetches := 0, sleeps := 0 }
      | .ok _qid => pollLoop svc2 0 60 := fun _ _ => rfl
  rcases hstart : svc.startQueryExecution query with e | qid
  · rw [hu, hstart] at h
    simp at h
  · rw [hu, hstart] at h ⊢
    exact pollLoop_ok_inv svc 60 0 cols rows n h

/-- C9: on every successful execution exactly one result fetch is
performed (with `MaxResults=100`), and since the header row is dropped at
most 99 data rows are materialized. -/
theorem single_fetch_row_cap :
    ∀ (svc : AthenaService) (query : String) (cols : List String)
      (rows : List (List (String × String))) (n : Nat),
      (execute_athena_query svc query).outcome = .ok cols rows n →
      (execute_athena_query svc query).fetches = 1 ∧ rows.length ≤ 99 := by
  intro svc query cols rows n h
  have := execute_ok_inv svc query cols rows n h
  exact ⟨this.1, this.2.2.2⟩

theorem single_fetch_row_cap_witness :
    (execute_athena_query inventoryService "q").outcome =
      .ok ["product_id", "product_name", "current_stock", "reorder_level", "stock_status"]
        [[("product_id", "P100"), ("product_name", "Widget"), ("current_stock", "4"),
          ("reorder_level", "10"), ("stock_status", "LOW")]] 1 ∧
    (execute_athena_query inventoryService "q").fetches = 1 ∧
    ([[("product_id", "P100"), ("product_name", "Widget"), ("current_stock", "4"),
       ("reorder_level", "10"), ("stock_status", "LOW")]] :
        List (List (String × String))).length ≤ 99 := by
  have h1 : (execute_athena_query inventoryService "q").outcome =
      .ok ["product_id", "product_name", "current_stock", "reorder_level", "stock_status"]
        [[("product_id", "P100"), ("product_name", "Widget"), ("current_stock", "4"),
          ("reorder_level", "10"), ("stock_status", "LOW")]] 1 := by decide
  have h := single_fetch_row_cap inventoryService "q" _ _ _ h1
  exact ⟨h1, h.1, h.2⟩

/-! ### Claims C1, C7, C2 -/

/-- C1: when submission succeeds and the service first reports a
terminal state (`SUCCEEDED`) on poll k with 1 ≤ k ≤ 60, the coordinator
issues exactly k status polls, sleeps one time unit between consecutive
polls (k-1 sleeps), fetches once and returns the materialized result;
when no poll within the 60-attempt budget reports a terminal state it
issues exactly 60 polls and returns the timeout error. -/
theorem execute_poll_count_spec :
    ∀ (svc : AthenaService) (query qid : String),
      svc.startQueryExecution query = .ok qid →
      (∀ k : Nat, 1 ≤ k → k ≤ 60 →
        (svc.statusAt (k - 1)).state = "SUCCEEDED" →
        (∀ j, j < k - 1 → nonTerminalState (svc.statusAt j).state) →
        execute_athena_query svc query =
          { outcome := materializeResult (svc.getQueryResults 100),
            polls := k, fetches := 1, sleeps := k - 1 }) ∧
      ((∀ j, j < 60 → nonTerminalState (svc.statusAt j).state) →
        execute_athena_query svc query =
          { outcome := .err "Query timeout - exceeded maximum wait time",
            polls := 60, fetches := 0, sleeps := 60 }) := by
  intro svc query qid hstart
  have hexec : execute_athena_query svc query = pollLoop svc 0 60 := by
    unfold execute_athena_query
    rw [hstart]
  constructor
  · intro k hk1 hk60 hsucc hnon
    rw [hexec]
    have h := pollLoop_success svc (k - 1) 60 0 (by omega)
      (by simpa using hsucc) (by intro j hj; simpa using hnon j hj)
    rw [h, show k - 1 + 1 = k by omega]
  · intro hnon
    rw [hexec]
    exact pollLoop_timeout svc 60 0 (by intro j hj; simpa using hnon j hj)

theorem execute_poll_count_spec_witness :
    execute_athena_query inventoryService "q" =
      { outcome := materializeResult (inventoryService.getQueryResults 100),
        polls := 1, fetches := 1, sleeps := 0 } ∧
    execute_athena_query runningService "q" =
      { outcome := .err "Query timeout - exceeded maximum wait time",
        polls := 60, fetches := 0, sleeps := 60 } := by
  constructor
  · exact (execute_poll_count_spec inventoryService "q" "qid-1" rfl).1 1 (by omega) (by omega)
      rfl (by intro j hj; omega)
  · exact (execute_poll_count_spec runningService "q" "qid-0" rfl).2 (by decide)

/-- C7: when submission succeeds and the first terminal status the
service reports (within the budget) is `FAILED` or `CANCELLED`, the
coordinator returns the service-reported `StateChangeReason`, or
`Unknown error` when the service provides none, without fetching; and a
failed submission is surfaced immediately (no poll, no fetch, no sleep —
nothing is retried). -/
theorem failure_classification_spec :
    (∀ (svc : AthenaService) (query qid : String) (k : Nat),
      svc.startQueryExecution query = .ok qid → 1 ≤ k → k ≤ 60 →
      ((svc.statusAt (k - 1)).state = "FAILED" ∨ (svc.statusAt (k - 1)).state = "CANCELLED") →
      (∀ j, j < k - 1 → nonTerminalState (svc.statusAt j).state) →
      execute_athena_query svc query =
        { outcome := .err ((svc.statusAt (k - 1)).stateChangeReason.getD "Unknown error"),
          polls := k, fetches := 0, sleeps := k - 1 }) ∧
    (∀ (svc : AthenaService) (query e : String),
      svc.startQueryExecution query = .error e →
      execute_athena_query svc query =
        { outcome := .err e, polls := 0, fetches := 0, sleeps := 0 }) := by
  constructor
  · intro svc query qid k hstart hk1 hk60 hterm hnon
    have hexec : execute_athena_query svc query = pollLoop svc 0 60 := by
      unfold execute_athena_query
      rw [hstart]
    rw [hexec]
    have h := pollLoop_terminal svc (k - 1) 60 0 (by omega) (by simpa using hterm)
      (by intro j hj; simpa using hnon j hj)
    rw [h, show k - 1 + 1 = k by omega]
    norm_num
  · intro svc query e hstart
    unfold execute_athena_query
    rw [hstart]

theorem failure_classification_spec_witness :
    execute_athena_query failingService "q" =
      { outcome := .err "SYNTAX_ERROR line 1", polls := 1, fetches := 0, sleeps := 0 } ∧
    execute_athena_query cancelledService "q" =
      { outcome := .err "Unknown error", polls := 2, fetches := 0, sleeps := 1 } ∧
    execute_athena_query downService "q" =
      { outcome := .err "AccessDeniedException", polls := 0, fetches := 0, sleeps := 0 } := by
  refine ⟨?_, ?_, ?_⟩
  · exact (failure_classification_spec.1 failingService "q" "qid-2" 1 rfl (by omega) (by omega)
      (Or.inl rfl) (by intro j hj; omega))
  · exact (failure_classification_spec.1 cancelledService "q" "qid-3" 2 rfl (by omega) (by omega)
      (Or.inr rfl) (by decide))
  · exact failure_classification_spec.2 downService "q" "AccessDeniedException" rfl

/-- C2 (amended): when the service-reported column labels are pairwise
distinct and every data row carries at least one `Data` entry per
column, materialization drops exactly the first returned row, produces
one output row per remaining input row, each output row's key sequence
equals the column-label sequence in order, and a present cell whose
`VarCharValue` is absent becomes the empty string. -/
theorem materialize_rows_spec :
    ∀ rs : ResultSet,
      rs.columnLabels.Nodup →
      (∀ r ∈ rs.rows.drop 1, rs.columnLabels.length ≤ r.length) →
      materializeResult rs =
        .ok rs.columnLabels
          ((rs.rows.drop 1).map (fun r =>
            rs.columnLabels.zip ((r.take rs.columnLabels.length).map
              (fun d => d.varCharValue.getD ""))))
          (rs.rows.drop 1).length ∧
      ∀ r ∈ rs.rows.drop 1,
        (rs.columnLabels.zip ((r.take rs.columnLabels.length).map
          (fun d => d.varCharValue.getD ""))).map Prod.fst = rs.columnLabels := by
  intro rs hnd hlen
  constructor
  · unfold materializeResult
    rw [parseRows_spec rs.columnLabels hnd (rs.rows.drop 1) hlen]
    simp
  · intro r hr
    apply List.map_fst_zip
    rw [List.length_map, List.length_take]
    have := hlen r hr
    omega

/-- A result set with a header row and one data row whose second cell
has no `VarCharValue`. -/
def sampleResultSet : ResultSet :=
  { columnLabels := ["a", "b"],
    rows := [[⟨some "a"⟩, ⟨some "b"⟩], [⟨some "1"⟩, ⟨none⟩]] }

theorem materialize_rows_spec_witness :
    materializeResult sampleResultSet = .ok ["a", "b"] [[("a", "1"), ("b", "")]] 1 ∧
    ∀ r ∈ sampleResultSet.rows.drop 1,
      ((sampleResultSet.columnLabels.zip ((r.take sampleResultSet.columnLabels.length).map
        (fun d => d.varCharValue.getD ""))).map Prod.fst) = sampleResultSet.columnLabels := by
  have h := materialize_rows_spec sampleResultSet (by decide) (by decide)
  exact ⟨h.1.trans (by decide), h.2⟩

/-- A result set whose service-reported column labels are duplicated. -/
def dupLabelResultSet : ResultSet :=
  { columnLabels := ["a", "a"],
    rows := [[⟨some "a"⟩, ⟨some "a"⟩], [⟨some "1"⟩, ⟨some "2"⟩]] }

/-- A result set with one data row shorter than the column list. -/
def shortRowResultSet : ResultSet :=
  { columnLabels := ["a"], rows := [[⟨some "a"⟩], []] }

theorem materialize_dup_label_counterexample :
    (materializeResult dupLabelResultSet = .ok ["a", "a"] [[("a", "2")]] 1 ∧
      [("a", "2")].map Prod.fst ≠ (["a", "a"] : List String)) ∧
    materializeResult shortRowResultSet = .err "list index out of range" :=
  ⟨⟨by decide, by decide⟩, by decide⟩

/-! ### str.format lemmas -/

theorem lookup_some_mem :
    ∀ (ps : List (String × String)) (k v : String),
      List.lookup k ps = some v → (k, v) ∈ ps := by
  intro ps k v
  induction ps with
  | nil => intro h; cases h
  | cons p rest ih =>
      intro h
      obtain ⟨k0, v0⟩ := p
      by_cases hk : (k == k0) = true
      · have hkk : k = k0 := beq_iff_eq.mp hk
        rw [List.lookup, hk] at h
        cases h
        subst hkk
        exact List.mem_cons_self _ _
      · have hkf : (k == k0) = false := by simpa using hk
        rw [List.lookup, hkf] at h
        exact List.mem_cons_of_mem _ (ih h)

/-- On a simple template, `str.format` raises `KeyError` naming the
first field in template order that the parameters lack. -/
theorem pyFormatAux_keyError (params : List (String × String)) :
    ∀ (mode : Option (List Char)) (l : List Char),
      ∀ (fields : List String) (m : String),
        simpleFieldsAux mode l = some fields →
        fields.find? (fun n => (List.lookup n params).isNone) = some m →
        pyFormatAux params mode l = .error (.keyError m) := by
  intro mode l
  induction mode, l using pyFormatAux.induct params with
  | case1 =>
      intro fields m hf hm
      rw [simpleFieldsAux.eq_1] at hf
      cases hf
      simp at hm
  | case2 rest ih =>
      intro fields m hf hm
      rw [simpleFieldsAux.eq_2] at hf
      cases hf
  | case3 rest ih =>
      intro fields m hf hm
      rw [simpleFieldsAux.eq_3] at hf
      cases hf
  | case4 rest hx ih =>
      intro fields m hf hm
      rw [simpleFieldsAux.eq_4 rest hx] at hf
      rw [pyFormatAux.eq_4 params rest hx]
      exact ih fields m hf hm
  | case5 tail hx =>
      intro fields m hf hm
      rw [simpleFieldsAux.eq_5 tail hx] at hf
      cases hf
  | case6 c rest h1 h2 h3 h4 ih =>
      intro fields m hf hm
      rw [simpleFieldsAux.eq_6 c rest h1 h2 h3 h4] at hf
      rw [pyFormatAux.eq_6 params c rest h1 h2 h3 h4, ih fields m hf hm]
      rfl
  | case7 val =>
      intro fields m hf hm
      rw [simpleFieldsAux.eq_7] at hf
      cases hf
  | case8 acc rest hlook =>
      intro fields m hf hm
      rw [simpleFieldsAux.eq_8] at hf
      rcases hrest : simpleFieldsAux none rest with _ | fs <;> rw [hrest] at hf
      · cases hf
      · simp only [Option.map] at hf
        cases hf
        rw [List.find?_cons_of_pos _ (by simp [hlook])] at hm
        cases hm
        rw [pyFormatAux.eq_8, hlook]
  | case9 acc rest v hlook ih =>
      intro fields m hf hm
      rw [simpleFieldsAux.eq_8] at hf
      rcases hrest : simpleFieldsAux none rest with _ | fs <;> rw [hrest] at hf
      · cases hf
      · simp only [Option.map] at hf
        cases hf
        rw [List.find?_cons_of_neg _ (by simp [hlook])] at hm
        rw [pyFormatAux.eq_8, hlook, ih fs m hrest hm]
        rfl
  | case10 val tail =>
      intro fields m hf hm
      rw [simpleFieldsAux.eq_9] at hf
      cases hf
  | case11 acc c rest h1 h2 ih =>
      intro fields m hf hm
      rw [simpleFieldsAux.eq_10 acc c rest h1 h2] at hf
      rw [pyFormatAux.eq_10 params acc c rest h1 h2]
      exact ih fields m hf hm

/-- On a simple template whose fields are all present, `str.format`
succeeds; when no parameter value contains a brace character, neither
does the output. -/
theorem pyFormatAux_complete (params : List (String × String)) :
    ∀ (mode : Option (List Char)) (l : List Char),
      ∀ fields : List String,
        simpleFieldsAux mode l = some fields →
        (∀ n ∈ fields, (List.lookup n params).isSome = true) →
        ∃ s : List Char, pyFormatAux params mode l = .ok s ∧
          ((∀ p ∈ params, bracesFree p.2.data = true) → bracesFree s = true) := by
  intro mode l
  induction mode, l using pyFormatAux.induct params with
  | case1 =>
      intro fields hf hall
      exact ⟨[], by rw [pyFormatAux.eq_1], fun _ => rfl⟩
  | case2 rest ih =>
      intro fields hf hall
      rw [simpleFieldsAux.eq_2] at hf
      cases hf
  | case3 rest ih =>
      intro fields hf hall
      rw [simpleFieldsAux.eq_3] at hf
      cases hf
  | case4 rest hx ih =>
      intro fields hf hall
      rw [simpleFieldsAux.eq_4 rest hx] at hf
      obtain ⟨s, hs, hb⟩ := ih fields hf hall
      exact ⟨s, by rw [pyFormatAux.eq_4 params rest hx]; exact hs, hb⟩
  | case5 tail hx =>
      intro fields hf hall
      rw [simpleFieldsAux.eq_5 tail hx] at hf
      cases hf
  | case6 c rest h1 h2 h3 h4 ih =>
      intro fields hf hall
      rw [simpleFieldsAux.eq_6 c rest h1 h2 h3 h4] at hf
      obtain ⟨s, hs, hb⟩ := ih fields hf hall
      refine ⟨c :: s, ?_, ?_⟩
      · rw [pyFormatAux.eq_6 params c rest h1 h2 h3 h4, hs]
        rfl
      · intro hv
        have hbs := hb hv
        have hc1 : (c == '\x7b') = false := by
          simpa using fun h => h3 h
        have hc2 : (c == '\x7d') = false := by
          simpa using fun h => h4 h
        simp only [bracesFree, List.all_cons, hc1, hc2] at hbs ⊢
        simpa using hbs
  | case7 val =>
      intro fields hf hall
      rw [simpleFieldsAux.eq_7] at hf
      cases hf
  | case8 acc rest hlook =>
      intro fields hf hall
      rw [simpleFieldsAux.eq_8] at hf
      rcases hrest : simpleFieldsAux none rest with _ | fs <;> rw [hrest] at hf
      · cases hf
      · simp only [Option.map] at hf
        cases hf
        have := hall acc.reverse.asString (List.mem_cons_self _ _)
        rw [hlook] at this
        cases this
  | case9 acc rest v hlook ih =>
      intro fields hf hall
      rw [simpleFieldsAux.eq_8] at hf
      rcases hrest : simpleFieldsAux none rest with _ | fs <;> rw [hrest] at hf
      · cases hf
      · simp only [Option.map] at hf
        cases hf
        obtain ⟨s, hs, hb⟩ := ih fs hrest
          (fun n hn => hall n (List.mem_cons_of_mem _ hn))
        refine ⟨v.data ++ s, ?_, ?_⟩
        · rw [pyFormatAux.eq_8, hlook, hs]
          rfl
        · intro hv
          have hbs := hb hv
          have hvmem := lookup_some_mem params acc.reverse.asString v hlook
          have hvb := hv (acc.reverse.asString, v) hvmem
          simp only [bracesFree, List.all_append] at hvb hbs ⊢
          rw [hvb, hbs]
          rfl
  | case10 val tail =>
      intro fields hf hall
      rw [simpleFieldsAux.eq_9] at hf
      cases hf
  | case11 acc c rest h1 h2 ih =>
      intro fields hf hall
      rw [simpleFieldsAux.eq_10 acc c rest h1 h2] at hf
      obtain ⟨s, hs, hb⟩ := ih fields hf hall
      exact ⟨s, by rw [pyFormatAux.eq_10 params acc c rest h1 h2]; exact hs, hb⟩

/-- On a simple template, `str.format` only consults the parameters at
the template's field names: two parameter maps that agree there format
identically. -/
theorem pyFormatAux_ext (params params2 : List (String × String)) :
    ∀ (mode : Option (List Char)) (l : List Char),
      ∀ fields : List String,
        simpleFieldsAux mode l = some fields →
        (∀ n ∈ fields, List.lookup n params2 = List.lookup n params) →
        pyFormatAux params2 mode l = pyFormatAux params mode l := by
  intro mode l
  induction mode, l using pyFormatAux.induct params with
  | case1 =>
      intro fields hf hag
      rw [pyFormatAux.eq_1, pyFormatAux.eq_1]
  | case2 rest ih =>
      intro fields hf hag
      rw [simpleFieldsAux.eq_2] at hf
      cases hf
  | case3 rest ih =>
      intro fields hf hag
      rw [simpleFieldsAux.eq_3] at hf
      cases hf
  | case4 rest hx ih =>
      intro fields hf hag
      rw [simpleFieldsAux.eq_4 rest hx] at hf
      rw [pyFormatAux.eq_4 params rest hx, pyFormatAux.eq_4 params2 rest hx]
      exact ih fields hf hag
  | case5 tail hx =>
      intro fields hf hag
      rw [pyFormatAux.eq_5 params tail hx, pyFormatAux.eq_5 params2 tail hx]
  | case6 c rest h1 h2 h3 h4 ih =>
      intro fields hf hag
      rw [simpleFieldsAux.eq_6 c rest h1 h2 h3 h4] at hf
      rw [pyFormatAux.eq_6 params c rest h1 h2 h3 h4,
        pyFormatAux.eq_6 params2 c rest h1 h2 h3 h4, ih fields hf hag]
  | case7 val =>
      intro fields hf hag
      rw [pyFormatAux.eq_7, pyFormatAux.eq_7]
  | case8 acc rest hlook =>
      intro fields hf hag
      rw [simpleFieldsAux.eq_8] at hf
      rcases hrest : simpleFieldsAux none rest with _ | fs <;> rw [hrest] at hf
      · cases hf
      · simp only [Option.map] at hf
        cases hf
        have hag0 := hag acc.reverse.asString (List.mem_cons_self _ _)
        rw [pyFormatAux.eq_8, pyFormatAux.eq_8, hlook, hag0, hlook]
  | case9 acc rest v hlook ih =>
      intro fields hf hag
      rw [simpleFieldsAux.eq_8] at hf
      rcases hrest : simpleFieldsAux none rest with _ | fs <;> rw [hrest] at hf
      · cases hf
      · simp only [Option.map] at hf
        cases hf
        have hag0 := hag acc.reverse.asString (List.mem_cons_self _ _)
        rw [pyFormatAux.eq_8, pyFormatAux.eq_8, hlook, hag0, hlook,
          ih fs hrest (fun n hn => hag n (List.mem_cons_of_mem _ hn))]
  | case10 val tail =>
      intro fields hf hag
      rw [pyFormatAux.eq_9, pyFormatAux.eq_9]
  | case11 acc c rest h1 h2 ih =>
      intro fields hf hag
      rw [simpleFieldsAux.eq_10 acc c rest h1 h2] at hf
      rw [pyFormatAux.eq_10 params acc c rest h1 h2,
        pyFormatAux.eq_10 params2 acc c rest h1 h2]
      exact ih fields hf hag

/-! ### Claims C3 and C4 -/

set_option maxRecDepth 8192 in
/-- Every template of the store is simple (well-paired braces, plain
field names). -/
theorem mem_store_simple :
    ∀ p ∈ PREDEFINED_QUERIES, (simpleFields p.2).isSome = true := by decide

theorem pyFormat_keyError (params : List (String × String)) (tmpl : String)
    (fields : List String) (m : String)
    (hf : simpleFields tmpl = some fields)
    (hm : fields.find? (fun n => (List.lookup n params).isNone) = some m) :
    pyFormat params tmpl = .error (.keyError m) := by
  unfold simpleFields at hf
  unfold pyFormat
  rw [pyFormatAux_keyError params none tmpl.data fields m hf hm]
  rfl

set_option maxRecDepth 16384 in
/-- C3: for every template of the store, binding with a parameter map
lacking at least one of the template's fields raises `KeyError` naming
the first missing field in template order; dispatching
`get_product_performance` with an empty parameter map yields the
`{'success': False, 'error': "Missing required parameter: 'months'"}`
envelope. -/
theorem bind_missing_parameter_first :
    (∀ (name tmpl : String) (params : List (String × String)) (m : String),
      (name, tmpl) ∈ PREDEFINED_QUERIES →
      firstMissing params tmpl = some m →
      pyFormat params tmpl = .error (.keyError m)) ∧
    ∀ svc : AthenaService,
      (lambda_handler svc [] "x___get_product_performance").response =
        .obj [("success", .bool false),
              ("error", .str "Missing required parameter: \x27months\x27")] := by
  constructor
  · intro name tmpl params m hmem hfind
    have hsome := mem_store_simple (name, tmpl) hmem
    rcases h : simpleFields tmpl with _ | fields
    · rw [h] at hsome
      cases hsome
    · unfold firstMissing templateFields at hfind
      rw [h] at hfind
      exact pyFormat_keyError params tmpl fields m h hfind
  · intro svc
    rfl

set_option maxRecDepth 8192 in
theorem bind_missing_parameter_first_witness :
    (("get_product_performance", tmpl_get_product_performance) ∈ PREDEFINED_QUERIES) ∧
    firstMissing [("limit", "5")] tmpl_get_product_performance = some "months" ∧
    pyFormat [("limit", "5")] tmpl_get_product_performance = .error (.keyError "months") := by
  refine ⟨by decide, by decide, ?_⟩
  exact bind_missing_parameter_first.1 "get_product_performance" tmpl_get_product_performance
    [("limit", "5")] "months" (by decide) (by decide)

/-- C4: for every template of the store and every parameter map covering
all of the template's fields, binding succeeds; the result contains no
brace character (hence no unsubstituted `\x7b...\x7d` marker) whenever
the supplied values are brace-free; and parameters the template does not
reference are ignored — any two maps agreeing on the template's fields
bind identically. -/
theorem bind_complete_params_ok :
    ∀ (name tmpl : String) (params : List (String × String)),
      (name, tmpl) ∈ PREDEFINED_QUERIES →
      (∀ n ∈ templateFields tmpl, (List.lookup n params).isSome = true) →
      (∃ s : String, pyFormat params tmpl = .ok s ∧
        ((∀ p ∈ params, noBraces p.2 = true) → noBraces s = true)) ∧
      ∀ params2 : List (String × String),
        (∀ n ∈ templateFields tmpl, List.lookup n params2 = List.lookup n params) →
        pyFormat params2 tmpl = pyFormat params tmpl := by
  intro name tmpl params hmem hall
  have hsome := mem_store_simple (name, tmpl) hmem
  rcases h : simpleFields tmpl with _ | fields
  · rw [h] at hsome
    cases hsome
  · have hfu : simpleFieldsAux none tmpl.data = some fields := h
    unfold templateFields at hall
    rw [h] at hall
    constructor
    · obtain ⟨s, hs, hb⟩ := pyFormatAux_complete params none tmpl.data fields hfu hall
      refine ⟨s.asString, ?_, ?_⟩
      · unfold pyFormat
        rw [hs]
        rfl
      · intro hv
        have : bracesFree s = true := hb (fun p hp => hv p hp)
        simpa [noBraces] using this
    · intro params2 hag
      unfold templateFields at hag
      rw [h] at hag
      unfold pyFormat
      rw [pyFormatAux_ext params params2 none tmpl.data fields hfu hag]
/-! ### Claims C5, C6, C8, C10 -/

set_option maxRecDepth 16384 in
theorem bind_complete_params_ok_witness :
    (∃ s : String, pyFormat [("warehouse_id", "WH001")] tmpl_get_inventory_status = .ok s ∧
      ((∀ p ∈ [("warehouse_id", "WH001")], noBraces p.2 = true) → noBraces s = true)) ∧
    pyFormat [("warehouse_id", "WH001"), ("extra_param", "7")] tmpl_get_inventory_status =
      pyFormat [("warehouse_id", "WH001")] tmpl_get_inventory_status := by
  have h := bind_complete_params_ok "get_inventory_status" tmpl_get_inventory_status
    [("warehouse_id", "WH001")] (by decide) (by decide)
  exact ⟨h.1, h.2 [("warehouse_id", "WH001"), ("extra_param", "7")] (by decide)⟩

/-- C5: an extracted tool identifier that is not a key of the store
yields the `{'success': False, 'error': 'Unknown tool: ...'}` envelope
and the coordinator is never invoked (no query is submitted). -/
theorem dispatch_unknown_tool :
    ∀ (svc : AthenaService) (event : List (String × String)) (ctx tool : String),
      extractToolName ctx = .ok tool →
      List.lookup tool PREDEFINED_QUERIES = none →
      lambda_handler svc event ctx =
        { response := .obj [("success", .bool false),
                            ("error", .str ("Unknown tool: " ++ tool))],
          trace := none } := by
  intro svc event ctx tool hex hlk
  simp [lambda_handler, hex, hlk]

theorem dispatch_unknown_tool_witness :
    lambda_handler runningService [] "x___nope" =
      { response := .obj [("success", .bool false), ("error", .str "Unknown tool: nope")],
        trace := none } :=
  dispatch_unknown_tool runningService [] "x___nope" "nope" rfl (by decide)

theorem rowToJ_isStrObj (r : List (String × String)) : isStrObj (rowToJ r) = true := by
  simp only [rowToJ, isStrObj]
  rw [List.all_eq_true]
  intro p hp
  obtain ⟨q, _, rfl⟩ := List.mem_map.mp hp
  rfl

theorem success_shape_holds (rows : List (List (String × String))) (cols : List String)
    (n : Nat) :
    isSuccessShape (.obj [("status", .str "success"), ("data", .arr (rows.map rowToJ)),
      ("metadata", .obj [("columns", .arr (cols.map JVal.str)),
                         ("row_count", .nat n)])]) = true := by
  have h1 : (rows.map rowToJ).all isStrObj = true := by
    rw [List.all_eq_true]
    intro v hv
    obtain ⟨r, _, rfl⟩ := List.mem_map.mp hv
    exact rowToJ_isStrObj r
  have h2 : (cols.map JVal.str).all isStr = true := by
    rw [List.all_eq_true]
    intro v hv
    obtain ⟨c, _, rfl⟩ := List.mem_map.mp hv
    rfl
  simp only [isSuccessShape, h1, h2]
  rfl

/-- C6 (amended): the handler never lets a fault escape — every response
is one of the three dictionary shapes the source builds: the
`status='success'` envelope, the `status='error'` envelope, or the
`{'success': False, 'error': ...}` dictionary (which carries no `status`
key) used for unknown-tool and missing-parameter failures. -/
theorem handler_envelope_shapes :
    ∀ (svc : AthenaService) (event : List (String × String)) (ctx : String),
      (isSuccessShape (lambda_handler svc event ctx).response ||
       isStatusErrorShape (lambda_handler svc event ctx).response ||
       isLegacyErrorShape (lambda_handler svc event ctx).response) = true := by
  intro svc event ctx
  rcases hex : extractToolName ctx with e | tool
  · simp [lambda_handler, hex, isStatusErrorShape]
  · rcases hlk : List.lookup tool PREDEFINED_QUERIES with _ | tmpl
    · simp [lambda_handler, hex, hlk, isLegacyErrorShape]
    · rcases hfmt : pyFormat event tmpl with exc | q
      · rcases exc with nm | msg
        · simp [lambda_handler, hex, hlk, hfmt, isLegacyErrorShape]
        · simp [lambda_handler, hex, hlk, hfmt, isStatusErrorShape]
      · rcases hout : (execute_athena_query svc q).outcome with ⟨cols, rows, n⟩ | e2
        · simp [lambda_handler, hex, hlk, hfmt, hout, success_shape_holds]
        · simp [lambda_handler, hex, hlk, hfmt, hout, isStatusErrorShape]

theorem handler_envelope_shape_counterexample :
    (lambda_handler runningService [] "x___not_a_tool").response =
      .obj [("success", .bool false), ("error", .str "Unknown tool: not_a_tool")] ∧
    (lambda_handler runningService [] "x___not_a_tool").response.hasKey "status" = false :=
  ⟨rfl, rfl⟩

/-- The `status` field of a response, when it is a string. -/
def statusOf (v : JVal) : Option String :=
  match v.lookupField "status" with
  | some (.str s) => some s
  | _ => none

/-- The `metadata.row_count` field of a response, when present. -/
def metadataRowCount (v : JVal) : Option Nat :=
  match v.lookupField "metadata" with
  | some m =>
      match m.lookupField "row_count" with
      | some (.nat n) => some n
      | _ => none
  | none => none

/-- Whether an `Except` value is `ok`. -/
def exceptIsOk {ε α : Type} : Except ε α → Bool
  | .ok _ => true
  | .error _ => false

set_option maxRecDepth 16384 in
/-- C8: whenever dispatch reaches a successful execution, the response is
the success envelope whose `metadata` carries the service-reported column
list and `row_count` equal to the number of materialized rows; the
inventory scenario yields a success envelope with `row_count = 1`. -/
theorem success_metadata_row_count :
    (∀ (svc : AthenaService) (event : List (String × String)) (ctx tool tmpl query : String)
       (cols : List String) (rows : List (List (String × String))) (n : Nat),
       extractToolName ctx = .ok tool →
       List.lookup tool PREDEFINED_QUERIES = some tmpl →
       pyFormat event tmpl = .ok query →
       (execute_athena_query svc query).outcome = .ok cols rows n →
       cols = svc.resultSet.columnLabels ∧
       (lambda_handler svc event ctx).response =
         .obj [("status", .str "success"),
               ("data", .arr (rows.map rowToJ)),
               ("metadata", .obj [("columns", .arr (cols.map JVal.str)),
                                  ("row_count", .nat rows.length)])]) ∧
    (statusOf (lambda_handler inventoryService [("warehouse_id", "WH001")]
        "x___get_inventory_status").response = some "success" ∧
     metadataRowCount (lambda_handler inventoryService [("warehouse_id", "WH001")]
        "x___get_inventory_status").response = some 1) := by
  constructor
  · intro svc event ctx tool tmpl query cols rows n hex hlk hfmt hout
    have hinv := execute_ok_inv svc query cols rows n hout
    refine ⟨hinv.2.1, ?_⟩
    simp only [lambda_handler, hex, hlk, hfmt, hout]
    rw [hinv.2.2.1]
  · exact ⟨by decide, by decide⟩

set_option maxRecDepth 16384 in
theorem success_metadata_row_count_witness :
    ∃ q : String,
      pyFormat [("warehouse_id", "WH001")] tmpl_get_inventory_status = .ok q ∧
      (lambda_handler inventoryService [("warehouse_id", "WH001")]
          "x___get_inventory_status").response =
        .obj [("status", .str "success"),
              ("data", .arr ([[("product_id", "P100"), ("product_name", "Widget"),
                ("current_stock", "4"), ("reorder_level", "10"),
                ("stock_status", "LOW")]].map rowToJ)),
              ("metadata", .obj
                [("columns", .arr ((["product_id", "product_name", "current_stock",
                  "reorder_level", "stock_status"] : List String).map JVal.str)),
                 ("row_count", .nat 1)])] := by
  rcases hq : pyFormat [("warehouse_id", "WH001")] tmpl_get_inventory_status with e | q
  · have hok : exceptIsOk (pyFormat [("warehouse_id", "WH001")] tmpl_get_inventory_status)
        = true := by decide
    rw [hq] at hok
    cases hok
  · exact ⟨q, rfl, (success_metadata_row_count.1 inventoryService [("warehouse_id", "WH001")]
      "x___get_inventory_status" "get_inventory_status" tmpl_get_inventory_status q
      ["product_id", "product_name", "current_stock", "reorder_level", "stock_status"]
      [[("product_id", "P100"), ("product_name", "Widget"), ("current_stock", "4"),
        ("reorder_level", "10"), ("stock_status", "LOW")]] 1
      rfl (by decide) hq rfl).2⟩

theorem strFindIndex_some (pat : List Char) :
    ∀ (l : List Char) (i : Nat), strFindIndex pat l = some i →
      pat.isPrefixOf (l.drop i) = true ∧
      ∀ j, j < i → pat.isPrefixOf (l.drop j) = false := by
  intro l
  induction l with
  | nil =>
      intro i h
      rw [strFindIndex] at h
      by_cases hp : pat.isEmpty
      · rw [if_pos hp] at h
        cases h
        constructor
        · cases pat with
          | nil => rfl
          | cons a as => cases hp
        · intro j hj
          omega
      · rw [if_neg hp] at h
        cases h
  | cons c rest ih =>
      intro i h
      rw [strFindIndex] at h
      by_cases hp : pat.isPrefixOf (c :: rest) = true
      · rw [if_pos hp] at h
        cases h
        exact ⟨hp, fun j hj => absurd hj (by omega)⟩
      · rw [if_neg hp] at h
        rcases hrec : strFindIndex pat rest with _ | i2 <;> rw [hrec] at h
        · cases h
        · simp only [Option.map] at h
          cases h
          obtain ⟨h1, h2⟩ := ih i2 hrec
          refine ⟨by simpa using h1, ?_⟩
          intro j hj
          cases j with
          | zero =>
              simp only [List.drop_zero]
              exact Bool.eq_false_iff.mpr hp
          | succ j2 =>
              simpa using h2 j2 (by omega)

theorem strFindIndex_none (pat : List Char) (hne : pat.isEmpty = false) :
    ∀ l : List Char, (∀ j, pat.isPrefixOf (l.drop j) = false) → strFindIndex pat l = none := by
  intro l
  induction l with
  | nil =>
      intro _
      rw [strFindIndex, if_neg (by simp [hne])]
  | cons c rest ih =>
      intro h
      have h0 : pat.isPrefixOf (c :: rest) = false := by
        have := h 0
        rwa [List.drop_zero] at this
      rw [strFindIndex, if_neg (by simp [h0])]
      rw [ih (fun j => by simpa using h (j + 1))]
      rfl

/-- C10: the tool identifier is the substring after the first occurrence
of the `___` delimiter in the context-supplied name (the found index is
an occurrence and no smaller index is); when the name contains no
occurrence at all, the handler returns the generic
`{'status': 'error', 'error': 'substring not found'}` envelope — not an
`Unknown tool` one — and submits nothing. -/
theorem tool_name_extraction_spec :
    (∀ (s : String) (idx : Nat),
      strFindIndex delim.data s.data = some idx →
      (delim.data.isPrefixOf (s.data.drop idx) = true ∧
        ∀ j, j < idx → delim.data.isPrefixOf (s.data.drop j) = false) ∧
      extractToolName s = .ok ((s.data.drop (idx + delim.length)).asString)) ∧
    (∀ (svc : AthenaService) (event : List (String × String)) (ctx : String),
      (∀ j, delim.data.isPrefixOf (ctx.data.drop j) = false) →
      lambda_handler svc event ctx =
        { response := .obj [("status", .str "error"), ("error", .str "substring not found")],
          trace := none } ∧
      ∀ t : String,
        (lambda_handler svc event ctx).response ≠
          .obj [("success", .bool false), ("error", .str ("Unknown tool: " ++ t))]) := by
  constructor
  · intro s idx h
    refine ⟨strFindIndex_some delim.data s.data idx h, ?_⟩
    unfold extractToolName
    rw [h]
  · intro svc event ctx hnone
    have hfi : strFindIndex delim.data ctx.data = none :=
      strFindIndex_none delim.data (by decide) ctx.data hnone
    have hex : extractToolName ctx = .error "substring not found" := by
      unfold extractToolName
      rw [hfi]
    constructor
    · simp [lambda_handler, hex]
    · intro t
      simp [lambda_handler, hex]

theorem tool_name_extraction_spec_witness :
    (delim.data.isPrefixOf ("x___get_sales_summary".data.drop 1) = true ∧
      ∀ j, j < 1 → delim.data.isPrefixOf ("x___get_sales_summary".data.drop j) = false) ∧
    extractToolName "x___get_sales_summary" = .ok "get_sales_summary" ∧
    lambda_handler runningService [] "" =
      { response := .obj [("status", .str "error"), ("error", .str "substring not found")],
        trace := none } := by
  have h1 := tool_name_extraction_spec.1 "x___get_sales_summary" 1 (by decide)
  have h2 := (tool_name_extraction_spec.2 runningService [] ""
    (fun j => by rw [show ("" : String).data = [] from rfl, List.drop_nil]; rfl)).1
  exact ⟨h1.1, h1.2, h2⟩

end AthenaLambda
